import Mathlib

/-!
Verification development for the `geospatial-retrieval` pipeline.

The repository retrieves five public energy datasets (OSM, GridKit,
Global Power Plant Database, ENTSO-E TSO interconnections, CORDIS),
normalizes each into node/relationship tables and writes CSVs plus a
metadata descriptor.  This file shallowly embeds the normalization and
control-flow logic of `src/main.py` and the five scripts under
`src/scripts/`, and proves (or refutes) the spec's claims about them.

Modelling conventions:
  * a pandas string column read with `dtype=str` is `Option String`
    (`none` models `NaN`);
  * pandas `drop_duplicates(subset=[k])` (default `keep='first'`) is
    `dedupFirstBy` below;
  * Python `float` parsing is modelled over `ℚ` (the claims concern
    decimal values, not IEEE rounding);
  * fallible steps (a pandas `astype(float)` that can raise, an HTTP
    request that can raise) return `Option`/`Except`; network responses
    are an oracle parameter.
-/

namespace GeoRetrieval

/-- First-seen deduplication by a key, the semantics of pandas
`drop_duplicates(subset=[key])` with the default `keep='first'`:
`seen` accumulates the keys already emitted. -/
def dedupFirstByAux {α κ : Type} [DecidableEq κ] (key : α → κ) (seen : List κ) :
    List α → List α
  | [] => []
  | x :: xs =>
    if key x ∈ seen then dedupFirstByAux key seen xs
    else x :: dedupFirstByAux key (key x :: seen) xs

/-- First-seen deduplication by a key (pandas `drop_duplicates`, `keep='first'`). -/
def dedupFirstBy {α κ : Type} [DecidableEq κ] (key : α → κ) (xs : List α) : List α :=
  dedupFirstByAux key [] xs

theorem mem_dedupFirstByAux {α κ : Type} [DecidableEq κ] (key : α → κ) (xs : List α) :
    ∀ (seen : List κ) (r : α),
      r ∈ dedupFirstByAux key seen xs ↔
        key r ∉ seen ∧ xs.find? (fun y => decide (key y = key r)) = some r := by
  induction xs with
  | nil => intro seen r; simp [dedupFirstByAux]
  | cons x xs ih =>
    intro seen r
    by_cases hx : key x ∈ seen
    · rw [dedupFirstByAux, if_pos hx]
      by_cases hk : key x = key r
      · have hr : key r ∈ seen := hk ▸ hx
        simp [ih, hr]
      · rw [List.find?_cons_of_neg _ (by simpa using hk), ih]
    · rw [dedupFirstByAux, if_neg hx]
      by_cases hk : key x = key r
      · have hr : key r ∉ seen := fun h => hx (hk ▸ h)
        rw [List.find?_cons_of_pos _ (by simpa using hk)]
        constructor
        · intro hmem
          rcases List.mem_cons.mp hmem with h | h
          · exact ⟨hr, by rw [h]⟩
          · exact absurd ((ih _ _).mp h).1 (by simp [hk])
        · rintro ⟨-, hfind⟩
          exact List.mem_cons.mpr (Or.inl (Option.some.injEq .. ▸ hfind.symm))
      · rw [List.find?_cons_of_neg _ (by simpa using hk)]
        constructor
        · intro hmem
          rcases List.mem_cons.mp hmem with h | h
          · exact absurd (congrArg key h.symm) hk
          · have := (ih _ _).mp h
            exact ⟨fun hs => this.1 (List.mem_cons_of_mem _ hs), this.2⟩
        · rintro ⟨hns, hfind⟩
          refine List.mem_cons.mpr (Or.inr ((ih _ _).mpr ⟨?_, hfind⟩))
          intro hs
          rcases List.mem_cons.mp hs with h | h
          · exact hk h.symm
          · exact hns h

/-- Membership characterization of first-seen dedup: the element kept for a
given key is exactly the first occurrence of that key in the input order. -/
theorem mem_dedupFirstBy {α κ : Type} [DecidableEq κ] (key : α → κ) (xs : List α) (r : α) :
    r ∈ dedupFirstBy key xs ↔ xs.find? (fun y => decide (key y = key r)) = some r := by
  rw [dedupFirstBy, mem_dedupFirstByAux]
  simp

theorem nodup_map_key_dedupFirstByAux {α κ : Type} [DecidableEq κ] (key : α → κ)
    (xs : List α) :
    ∀ seen : List κ, ((dedupFirstByAux key seen xs).map key).Nodup ∧
      ∀ k ∈ (dedupFirstByAux key seen xs).map key, k ∉ seen := by
  induction xs with
  | nil => intro seen; simp [dedupFirstByAux]
  | cons x xs ih =>
    intro seen
    by_cases hx : key x ∈ seen
    · rw [dedupFirstByAux, if_pos hx]; exact ih seen
    · rw [dedupFirstByAux, if_neg hx]
      obtain ⟨hnd, hout⟩ := ih (key x :: seen)
      refine ⟨?_, ?_⟩
      · simp only [List.map_cons, List.nodup_cons]
        exact ⟨fun h => (hout _ h) (List.mem_cons_self _ _), hnd⟩
      · intro k hk
        rcases List.mem_cons.mp hk with h | h
        · exact h ▸ hx
        · exact fun hs => hout _ h (List.mem_cons_of_mem _ hs)

/-- Keys of a first-seen-deduplicated list are pairwise distinct. -/
theorem nodup_map_key_dedupFirstBy {α κ : Type} [DecidableEq κ] (key : α → κ)
    (xs : List α) : ((dedupFirstBy key xs).map key).Nodup :=
  (nodup_map_key_dedupFirstByAux key xs []).1

/-- Elements of the deduplicated list come from the input list. -/
theorem mem_of_mem_dedupFirstBy {α κ : Type} [DecidableEq κ] {key : α → κ}
    {xs : List α} {r : α} (h : r ∈ dedupFirstBy key xs) : r ∈ xs :=
  List.mem_of_find?_eq_some ((mem_dedupFirstBy key xs r).mp h)

/-!
TSO interconnection adapter (`src/scripts/tso_network_retrieval.py`).

`fetch_tso_network_data` sweeps every ordered pair of distinct area codes
from the `TSO_CODES` dict and records a pair as `Connected` when the HTTP
response has status 200, non-empty content, and content length above 500
bytes.  The HTTP layer is an oracle parameter; a request that raises is the
`exn` outcome, and — exactly as in the source, which has no try/except
inside the loop — it aborts the whole sweep (`Except.error`).
-/

/-- Countries and ENTSO-E area EIC codes, in the insertion order of the
Python dict `TSO_CODES` (Python dicts preserve insertion order). -/
def TSO_CODES : List (String × String) := [
  ("Austria", "10YAT-APG------L"),
  ("Belgium", "10YBE----------2"),
  ("Bulgaria", "10YCA-BULGARIA-R"),
  ("Croatia", "10YHR-HEP------M"),
  ("Czech Republic", "10YCZ-CEPS-----N"),
  ("Denmark", "10Y1001A1001A65H"),
  ("Estonia", "10Y1001A1001A39I"),
  ("Finland", "10YFI-1--------U"),
  ("France", "10YFR-RTE------C"),
  ("Germany", "10Y1001A1001A83F"),
  ("Greece", "10YGR-HTSO-----Y"),
  ("Hungary", "10YHU-MAVIR----U"),
  ("Ireland", "10YIE-1001A00010"),
  ("Italy", "10YIT-GRTN-----B"),
  ("Latvia", "10YLV-1001A00074"),
  ("Lithuania", "10YLT-1001A0008Q"),
  ("Netherlands", "10YNL----------L"),
  ("Poland", "10YPL-AREA-----S"),
  ("Portugal", "10YPT-REN------W"),
  ("Romania", "10YRO-TEL------P"),
  ("Slovakia", "10YSK-SEPS-----K"),
  ("Slovenia", "10YSI-ELES-----O"),
  ("Spain", "10YES-REE------0"),
  ("Sweden", "10YSE-1--------K")]

/-- Outcome of one HTTP GET against the transparency platform: a response
with a status code and a content byte length, or a raised exception. -/
inductive RespOutcome : Type where
  | ok (status : Nat) (contentLength : Nat)
  | exn
  deriving DecidableEq, Repr

/-- One record appended by the fetch sweep (dict literal at lines 61-67 of
`tso_network_retrieval.py`). -/
structure Interconnection : Type where
  tso_from : String
  tso_to : String
  from_area_code : String
  to_area_code : String
  status : String
  deriving DecidableEq, Repr

def mkInterconnection (p : (String × String) × (String × String)) : Interconnection :=
  ⟨p.1.1, p.2.1, p.1.2, p.2.2, "Connected"⟩

/-- All ordered pairs of `TSO_CODES` entries, in the nested-loop order of
the source (`for country_from ... : for country_to ...`). -/
def tsoAllPairs : List ((String × String) × (String × String)) :=
  (TSO_CODES.map (fun p => TSO_CODES.map (fun q => (p, q)))).flatten

/-- Response acceptance: `status_code == 200 and response.content` (outer
if) and then `len(response.content) > 500` (inner if). -/
def keepResp (status len : Nat) : Bool :=
  status == 200 && len != 0 && decide (500 < len)

def fetchLoop (oracle : String → String → RespOutcome) :
    List ((String × String) × (String × String)) → Except Unit (List Interconnection)
  | [] => .ok []
  | p :: ps =>
    if p.1.2 ≠ p.2.2 then
      match oracle p.1.2 p.2.2 with
      | .exn => .error ()
      | .ok status len =>
        match fetchLoop oracle ps with
        | .error e => .error e
        | .ok rest =>
          if keepResp status len then .ok (mkInterconnection p :: rest) else .ok rest
    else fetchLoop oracle ps

/-- Shallow embedding of `fetch_tso_network_data`, parameterized by the
HTTP oracle. -/
def fetch_tso_network_data (oracle : String → String → RespOutcome) :
    Except Unit (List Interconnection) :=
  fetchLoop oracle tsoAllPairs

/-- Predicate deciding whether a pair is recorded as connected, given the
oracle: distinct area codes and an accepted response. -/
def pairKept (oracle : String → String → RespOutcome)
    (p : (String × String) × (String × String)) : Bool :=
  p.1.2 != p.2.2 &&
    match oracle p.1.2 p.2.2 with
    | .ok status len => keepResp status len
    | .exn => false

/-- Relationship rows of `interconnected_with_relationships.csv`: the raw
records renamed and projected to `source_country, target_country, status`
(`process_entsoe_tso_network`). -/
structure TsoRelRow : Type where
  source_country : String
  target_country : String
  status : String
  deriving DecidableEq, Repr

def tsoRelationshipRows (recs : List Interconnection) : List TsoRelRow :=
  recs.map (fun r => ⟨r.tso_from, r.tso_to, r.status⟩)

/-- Node rows of `tso_nodes.csv`: the union of the from/to projections,
full-row deduplicated (`pd.concat(...).drop_duplicates()`). -/
structure TsoNodeRow : Type where
  country : String
  area_code : String
  deriving DecidableEq, Repr

def tsoNodeRows (recs : List Interconnection) : List TsoNodeRow :=
  dedupFirstBy id
    (recs.map (fun r => ⟨r.tso_from, r.from_area_code⟩) ++
      recs.map (fun r => ⟨r.tso_to, r.to_area_code⟩))

theorem fetchLoop_no_exn (oracle : String → String → RespOutcome)
    (h : ∀ aF aT, oracle aF aT ≠ RespOutcome.exn) :
    ∀ ps, fetchLoop oracle ps = .ok ((ps.filter (pairKept oracle)).map mkInterconnection) := by
  intro ps
  induction ps with
  | nil => rfl
  | cons p ps ih =>
    rw [fetchLoop]
    by_cases hne : p.1.2 ≠ p.2.2
    · rw [if_pos hne]
      cases ho : oracle p.1.2 p.2.2 with
      | exn => exact absurd ho (h _ _)
      | ok s l =>
        rw [ih]
        by_cases hk : keepResp s l
        · simp [List.filter_cons, pairKept, ho, hne, hk, bne_iff_ne]
        · simp [List.filter_cons, pairKept, ho, hne, hk, bne_iff_ne]
    · rw [if_neg hne, ih]
      have : pairKept oracle p = false := by
        simp only [pairKept, Bool.and_eq_false_iff, bne_iff_ne]
        exact Or.inl (by simpa using hne)
      simp [List.filter_cons, this]

theorem fetchLoop_areas_distinct (oracle : String → String → RespOutcome) :
    ∀ ps recs, fetchLoop oracle ps = .ok recs →
      ∀ rec ∈ recs, rec.from_area_code ≠ rec.to_area_code := by
  intro ps
  induction ps with
  | nil =>
    intro recs h rec hrec
    rw [fetchLoop] at h
    cases h
    simp at hrec
  | cons p ps ih =>
    intro recs h rec hrec
    rw [fetchLoop] at h
    by_cases hne : p.1.2 ≠ p.2.2
    · rw [if_pos hne] at h
      cases ho : oracle p.1.2 p.2.2 with
      | exn => rw [ho] at h; cases h
      | ok s l =>
        rw [ho] at h
        cases hrest : fetchLoop oracle ps with
        | error e => rw [hrest] at h; cases h
        | ok rest =>
          rw [hrest] at h
          dsimp only at h
          by_cases hk : keepResp s l
          · rw [if_pos hk] at h
            cases h
            rcases List.mem_cons.mp hrec with hr | hr
            · rw [hr]; exact hne
            · exact ih rest hrest rec hr
          · rw [if_neg hk] at h
            cases h
            exact ih recs hrest rec hrec
    · rw [if_neg hne] at h
      exact ih recs h rec hrec

/-- Oracle for concrete runs: exactly one pair (Austria → Belgium, by area
codes) gets an accepted 200 response of 600 bytes; all others get 404. -/
def tsoOracleOne : String → String → RespOutcome := fun aF aT =>
  if aF = "10YAT-APG------L" ∧ aT = "10YBE----------2" then .ok 200 600 else .ok 404 0

/-- Oracle under which one pair's request raises and all others return 404. -/
def tsoOracleExn : String → String → RespOutcome := fun aF aT =>
  if aF = "10YAT-APG------L" ∧ aT = "10YBE----------2" then .exn else .ok 404 0

/-- Oracle under which every request returns a 404 response. -/
def tsoOracle404 : String → String → RespOutcome := fun _ _ => .ok 404 0

def tsoRecOne : Interconnection :=
  ⟨"Austria", "Belgium", "10YAT-APG------L", "10YBE----------2", "Connected"⟩

/-- C9: for every TSO run, every row of interconnected_with_relationships.csv
comes from a fetched record whose ordered pair of area codes is distinct
(`area_from ≠ area_to`), so no relationship row connects a TSO area to
itself. -/
theorem C9_tso_no_self_pair (oracle : String → String → RespOutcome)
    (recs : List Interconnection) (row : TsoRelRow)
    (hfetch : fetch_tso_network_data oracle = .ok recs)
    (hrow : row ∈ tsoRelationshipRows recs) :
    ∃ rec ∈ recs, row = ⟨rec.tso_from, rec.tso_to, rec.status⟩ ∧
      rec.from_area_code ≠ rec.to_area_code := by
  obtain ⟨rec, hmem, hproj⟩ := List.mem_map.mp hrow
  exact ⟨rec, hmem, hproj.symm,
    fetchLoop_areas_distinct oracle tsoAllPairs recs hfetch rec hmem⟩

set_option maxRecDepth 100000 in
/-- Witness for C9: a concrete sweep in which exactly the Austria → Belgium
pair is connected. -/
theorem C9_tso_no_self_pair_witness :
    ∃ rec ∈ [tsoRecOne],
      (⟨"Austria", "Belgium", "Connected"⟩ : TsoRelRow) =
        ⟨rec.tso_from, rec.tso_to, rec.status⟩ ∧
      rec.from_area_code ≠ rec.to_area_code :=
  C9_tso_no_self_pair tsoOracleOne [tsoRecOne] ⟨"Austria", "Belgium", "Connected"⟩
    (by rfl) (by decide)

/-- C4 counterexample: the claim says a raised exception during one pair's
request is not fatal and the sweep continues with the remaining pairs; but
the fetch loop has no exception handler, so with an oracle that raises on
the single pair Austria → Belgium the whole sweep aborts with an error
instead of returning the remaining pairs' results. -/
theorem C4_counterexample :
    fetch_tso_network_data tsoOracleExn = .error () := by rfl

/-- C4 (amended): in the TSO pairwise sweep a non-200 (or empty / too
small) HTTP response is not fatal — the pair is omitted and the sweep
continues over all remaining pairs, returning exactly the accepted pairs in
order; but this holds only when no request raises an exception (a raised
exception aborts the sweep). -/
theorem C4_tso_per_pair_failure (oracle : String → String → RespOutcome)
    (h : ∀ aF aT, oracle aF aT ≠ RespOutcome.exn) :
    fetch_tso_network_data oracle =
      .ok ((tsoAllPairs.filter (pairKept oracle)).map mkInterconnection) :=
  fetchLoop_no_exn oracle h tsoAllPairs

/-- Witness for C4: under the all-404 oracle the sweep completes with every
pair omitted. -/
theorem C4_tso_per_pair_failure_witness :
    fetch_tso_network_data tsoOracle404 =
      .ok ((tsoAllPairs.filter (pairKept tsoOracle404)).map mkInterconnection) :=
  C4_tso_per_pair_failure tsoOracle404 (fun _ _ hc => RespOutcome.noConfusion hc)

/-!
CORDIS adapter (`src/scripts/cordis_retrieval.py`).

Project rows are loaded with `dtype=str` (every cell `Option String`,
`none` = `NaN`).  The numeric cleaning of `ecMaxContribution` / `totalCost`
strips characters other than digits, comma and dot, turns every comma into
a dot, then runs `astype(float)` — which raises `ValueError` on a string it
cannot parse — followed by `fillna(0)` (which only affects cells that were
missing to begin with).  Dates go through
`pd.to_datetime(..., format='%Y-%m-%d', errors='coerce')` and `dropna`.
-/

/-- Characters kept by `.str.replace(r'[^\d,.]', '', regex=True)`. -/
def keepNumChar (c : Char) : Bool := c.isDigit || c == ',' || c == '.'

/-- Single-character substitution; `.str.replace(',', '.')` with a
one-character pattern is exactly a character-wise map. -/
def replaceChar (a b : Char) (s : String) : String :=
  (s.data.map (fun c => if c = a then b else c)).asString

/-- Numeric cleaning text steps of lines 60-63: strip every character that
is not a digit, comma or dot, then replace each comma with a dot. -/
def cleanNumericText (s : String) : String :=
  replaceChar ',' '.' (s.data.filter keepNumChar).asString

/-- Numeral value of a digit list (0 for the empty list). -/
def digitsVal (cs : List Char) : Nat :=
  cs.foldl (fun n c => 10 * n + (c.toNat - 48)) 0

/-- Parse a nonempty all-digit string to a natural number. -/
def digitsToNat? (cs : List Char) : Option Nat :=
  if cs ≠ [] ∧ cs.all Char.isDigit then some (digitsVal cs) else none

/-- Auxiliary splitter accumulating the current piece in reverse. -/
def splitOnCharAux (c : Char) : List Char → List Char → List (List Char)
  | [], acc => [acc.reverse]
  | x :: xs, acc =>
    if x = c then acc.reverse :: splitOnCharAux c xs []
    else splitOnCharAux c xs (x :: acc)

/-- Split on a single separator character, with the semantics of Python /
pandas `str.split` and of `String.splitOn` for one-character separators. -/
def splitOnChar (c : Char) (s : String) : List (List Char) :=
  splitOnCharAux c s.data []

/-- Model of Python `float` on an unsigned finite decimal literal: `digits`,
`digits.`, `.digits` or `digits.digits`.  A string with two dots — such as
`"1.234.56"` — has no parse, exactly as `float` raises `ValueError`.
(Exponent forms, `inf`/`nan` and surrounding whitespace do not occur in the
inputs considered and are not modelled.) -/
def pyFloatUnsigned? (s : String) : Option ℚ :=
  match splitOnChar '.' s with
  | [ip] => (digitsToNat? ip).map (fun n => (n : ℚ))
  | [ip, fp] =>
    if ip.all Char.isDigit ∧ fp.all Char.isDigit ∧ ¬(ip = [] ∧ fp = []) then
      some ((digitsVal ip : ℚ) + (digitsVal fp : ℚ) / (10 : ℚ) ^ fp.length)
    else none
  | _ => none

/-- Model of Python `float(s)` with an optional leading sign. -/
def pyFloat? (s : String) : Option ℚ :=
  match s.data with
  | '-' :: rest => (pyFloatUnsigned? rest.asString).map (fun q => -q)
  | '+' :: rest => pyFloatUnsigned? rest.asString
  | _ => pyFloatUnsigned? s

/-- Cell-level coercion of `ecMaxContribution` / `totalCost` (lines 59-66):
a missing cell stays `NaN` through the string operations and
`astype(float)` and is then set to `0` by `fillna(0)`; a present cell is
cleaned and parsed, a parse failure being a raised `ValueError` (`none`). -/
def coerceMoneyCell (v : Option String) : Option ℚ :=
  match v with
  | none => some 0
  | some s => pyFloat? (cleanNumericText s)

/-- Column-level `astype(float).fillna(0)`: one unparseable cell raises and
aborts the whole normalization (`none`). -/
def coerceMoneyColumn : List (Option String) → Option (List ℚ)
  | [] => some []
  | v :: vs =>
    match coerceMoneyCell v, coerceMoneyColumn vs with
    | some q, some qs => some (q :: qs)
    | _, _ => none

/-- Cell-level coercion of the `ecContribution` relationship attribute
(line 84): only `.str.replace(',', '.')` — no character stripping — then
`astype(float).fillna(0)`. -/
def coerceEcContributionCell (v : Option String) : Option ℚ :=
  match v with
  | none => some 0
  | some s => pyFloat? (replaceChar ',' '.' s)

def coerceEcContributionColumn : List (Option String) → Option (List ℚ)
  | [] => some []
  | v :: vs =>
    match coerceEcContributionCell v, coerceEcContributionColumn vs with
    | some q, some qs => some (q :: qs)
    | _, _ => none

/-- Leap-year rule of the Gregorian calendar. -/
def isLeapYear (y : Nat) : Bool :=
  y % 4 == 0 && (y % 100 != 0 || y % 400 == 0)

def daysInMonth (y m : Nat) : Nat :=
  if m = 2 then (if isLeapYear y then 29 else 28)
  else if m = 4 ∨ m = 6 ∨ m = 9 ∨ m = 11 then 30
  else 31

/-- Model of `pd.to_datetime(s, format='%Y-%m-%d', errors='coerce')` on one
cell: strict `YYYY-MM-DD` (strptime accepts unpadded fields up to the
directive width: at most 4 year digits, at most 2 month/day digits) with
calendar validation; any failure yields `NaT` (`none`) and never raises.
(The pandas `Timestamp` year-range bound is not modelled; no claim involves
out-of-range years.) -/
def parseDateISO (s : String) : Option (Nat × Nat × Nat) :=
  match splitOnChar '-' s with
  | [ys, ms, ds] =>
    match digitsToNat? ys, digitsToNat? ms, digitsToNat? ds with
    | some y, some m, some d =>
      if ys.length ≤ 4 ∧ ms.length ≤ 2 ∧ ds.length ≤ 2 ∧
          1 ≤ m ∧ m ≤ 12 ∧ 1 ≤ d ∧ d ≤ daysInMonth y m then
        some (y, m, d)
      else none
    | _, _, _ => none
  | _ => none

/-- Project row after the numeric stage, before the date stage: the eleven
required columns of line 50-51 with `id` renamed to `projectId` (line 56)
and the two money columns already numeric. -/
structure CordisProjRowNum : Type where
  projectId : Option String
  acronym : Option String
  title : Option String
  objective : Option String
  startDate : Option String
  endDate : Option String
  ecMaxContribution : ℚ
  totalCost : ℚ
  topics : Option String
  legalBasis : Option String
  frameworkProgramme : Option String
  deriving DecidableEq, Repr

/-- Fully processed `Project` node row. -/
structure CordisProjectNode : Type where
  projectId : Option String
  acronym : Option String
  title : Option String
  objective : Option String
  startDate : Nat × Nat × Nat
  endDate : Nat × Nat × Nat
  ecMaxContribution : ℚ
  totalCost : ℚ
  topics : Option String
  legalBasis : Option String
  frameworkProgramme : Option String
  label : String
  deriving DecidableEq, Repr

/-- Date stage of `process_cordis_data` (lines 69-74) on one row: both date
cells are parsed under `errors='coerce'`; `dropna(subset=['startDate',
'endDate'])` keeps the row iff both parsed, the parsed dates replacing the
text and the label being set to `Project`. -/
def cordisDateStage (r : CordisProjRowNum) : Option CordisProjectNode :=
  match r.startDate.bind parseDateISO, r.endDate.bind parseDateISO with
  | some sd, some ed =>
    some ⟨r.projectId, r.acronym, r.title, r.objective, sd, ed,
      r.ecMaxContribution, r.totalCost, r.topics, r.legalBasis,
      r.frameworkProgramme, "Project"⟩
  | _, _ => none

/-- Row-wise form of the date stage applied to the whole project table. -/
def cordisDateStageList (rows : List CordisProjRowNum) : List CordisProjectNode :=
  rows.filterMap cordisDateStage

/-- Raw organization row: the ten required columns of lines 52-53,
`dtype=str`. -/
structure CordisOrgRaw : Type where
  organisationID : Option String
  name : Option String
  shortName : Option String
  country : Option String
  vatNumber : Option String
  city : Option String
  activityType : Option String
  projectID : Option String
  role : Option String
  ecContribution : Option String
  deriving DecidableEq, Repr

/-- Emitted `Organization` node row. -/
structure CordisOrgNode : Type where
  organizationId : Option String
  name : Option String
  shortName : Option String
  country : Option String
  vatNumber : Option String
  city : Option String
  activityType : Option String
  label : String
  deriving DecidableEq, Repr

/-- Organization nodes (lines 77-79): the first seven required columns
(`required_org_cols[:-3]`) selected, `organisationID` renamed to
`organizationId`, label set.  No deduplication is applied. -/
def cordisOrgNodes (rows : List CordisOrgRaw) : List CordisOrgNode :=
  rows.map (fun r =>
    ⟨r.organisationID, r.name, r.shortName, r.country, r.vatNumber,
      r.city, r.activityType, "Organization"⟩)

/-- Two source organization rows for one organization (id 999)
participating in two different projects — the shape organization.csv
actually has, one row per (project, organization) participation. -/
def cordisOrgExample : List CordisOrgRaw :=
  [⟨some "999", some "ACME Research", some "ACME", some "DE", none,
      some "Berlin", some "PRC", some "101", some "participant",
      some "100000,50"⟩,
    ⟨some "999", some "ACME Research", some "ACME", some "DE", none,
      some "Berlin", some "PRC", some "202", some "coordinator",
      some "5000"⟩]

/-!
Metadata `files` mappings versus the CSV files each run writes.
-/

/-- CSV files written by `process_cordis_data` (lines 106-112), in write
order. -/
def cordisWrittenCsvFiles : List String :=
  ["projects_nodes.csv", "organizations_nodes.csv", "topics_nodes.csv",
    "legal_basis_nodes.csv", "participated_in_relationships.csv",
    "has_topic_relationships.csv", "has_legalbasis_relationships.csv"]

/-- CSV filenames listed in the `files` mapping of the CORDIS metadata
(lines 124-137), the nested `relationships` values flattened in. -/
def cordisMetadataFiles : List String :=
  ["projects_nodes.csv", "organizations_nodes.csv", "topics_nodes.csv",
    "legal_basis_nodes.csv", "participated_in_relationships.csv",
    "has_topic_relationships.csv", "has_legalbasis_relationships.csv",
    "euroSciVoc.csv", "webLink.csv", "webItem.csv"]

/-- CSV files a TSO run writes: the raw sweep dump written by
`save_interconnections` plus the two prepared tables written by
`process_entsoe_tso_network`. -/
def tsoWrittenCsvFiles : List String :=
  ["entsoe_tso_network.csv", "tso_nodes.csv",
    "interconnected_with_relationships.csv"]

/-- CSV filenames in the `files` mapping of the TSO metadata
(`tso_network_retrieval.py` lines 129-132). -/
def tsoMetadataFiles : List String :=
  ["tso_nodes.csv", "interconnected_with_relationships.csv"]

/-- CSV files written by `process_gridkit_data`. -/
def gridkitWrittenCsvFiles : List String :=
  ["grid_nodes.csv", "connected_to_relationships.csv"]

/-- CSV filenames in the `files` mapping of the GridKit metadata. -/
def gridkitMetadataFiles : List String :=
  ["grid_nodes.csv", "connected_to_relationships.csv"]

/-- CSV files written by `process_powerplant_data`, in write order. -/
def powerplantsWrittenCsvFiles : List String :=
  ["powerplants_nodes.csv", "countries_nodes.csv", "owners_nodes.csv",
    "fuel_types_nodes.csv", "located_in_relationships.csv",
    "owned_by_relationships.csv", "uses_fuel_relationships.csv"]

/-- CSV filenames in the `files` mapping of the power-plants metadata
(`nodes` and `relationships` lists flattened in order). -/
def powerplantsMetadataFiles : List String :=
  ["powerplants_nodes.csv", "countries_nodes.csv", "owners_nodes.csv",
    "fuel_types_nodes.csv", "located_in_relationships.csv",
    "owned_by_relationships.csv", "uses_fuel_relationships.csv"]

/-- C2: evaluating the CORDIS money coercion at the spec's own example.
Cleaning "1.234,56" keeps digits, comma and dot and then turns the comma
into a dot, producing "1.234.56"; `float` cannot parse that, so
`astype(float)` raises and the column coercion aborts (`none`) instead of
yielding 1234.56 with the run continuing.  The ecContribution path aborts
on the same input as well (and performs no character stripping at all),
while a value with only a comma decimal separator does coerce. -/
theorem C2_cordis_money_coercion :
    cleanNumericText "1.234,56" = "1.234.56" ∧
    coerceMoneyColumn [some "1.234,56"] = none ∧
    coerceEcContributionColumn [some "1.234,56"] = none ∧
    coerceMoneyColumn [some "1234,56"] = some [(123456 : ℚ) / 100] := by
  refine ⟨by decide, by decide, by decide, ?_⟩
  have h : coerceMoneyColumn [some "1234,56"] =
      some [((1234 : ℕ) : ℚ) + ((56 : ℕ) : ℚ) / (10 : ℚ) ^ (2 : ℕ)] := rfl
  rw [h]
  norm_num

/-- C6: in CORDIS normalization a project row survives the date stage iff
both `startDate` and `endDate` parse under the strict `%Y-%m-%d` format;
every output row is the parsed version of some surviving input row (no
fallback coercion), the stage is a total function (a date failure never
raises), and the spec's example `"2020-13-01"` (month 13) fails to parse. -/
theorem C6_cordis_bad_dates_dropped :
    (∀ (rows : List CordisProjRowNum) (r' : CordisProjectNode),
        r' ∈ cordisDateStageList rows ↔
          ∃ r, r ∈ rows ∧ cordisDateStage r = some r') ∧
    (∀ r : CordisProjRowNum,
        (cordisDateStage r).isSome ↔
          ((r.startDate.bind parseDateISO).isSome ∧
            (r.endDate.bind parseDateISO).isSome)) ∧
    parseDateISO "2020-13-01" = none := by
  refine ⟨?_, ?_, by decide⟩
  · intro rows r'
    simp [cordisDateStageList, List.mem_filterMap]
  · intro r
    unfold cordisDateStage
    cases hs : r.startDate.bind parseDateISO <;>
      cases he : r.endDate.bind parseDateISO <;> simp

/-- C1 counterexample: organizations_nodes.csv is written without any
deduplication, so a run whose organization.csv holds one row per
(project, organization) participation — the shape the CORDIS source data
has — emits duplicate `organizationId` values: on `cordisOrgExample` the
id 999 appears twice. -/
theorem C1_counterexample :
    ¬ ((cordisOrgNodes cordisOrgExample).map
        (fun r => r.organizationId)).Nodup := by decide

/-- C3: the CORDIS metadata `files` mapping lists euroSciVoc.csv,
webLink.csv and webItem.csv, none of which the run writes (dangling
references), and the TSO run writes entsoe_tso_network.csv which its
metadata `files` mapping does not list (an orphan file); the GridKit and
power-plants mappings do match their writes exactly. -/
theorem C3_metadata_files_mismatch :
    ("euroSciVoc.csv" ∈ cordisMetadataFiles ∧
      "euroSciVoc.csv" ∉ cordisWrittenCsvFiles) ∧
    ("webLink.csv" ∈ cordisMetadataFiles ∧
      "webLink.csv" ∉ cordisWrittenCsvFiles) ∧
    ("webItem.csv" ∈ cordisMetadataFiles ∧
      "webItem.csv" ∉ cordisWrittenCsvFiles) ∧
    ("entsoe_tso_network.csv" ∈ tsoWrittenCsvFiles ∧
      "entsoe_tso_network.csv" ∉ tsoMetadataFiles) ∧
    gridkitMetadataFiles = gridkitWrittenCsvFiles ∧
    powerplantsMetadataFiles = powerplantsWrittenCsvFiles := by decide

/-!
Staging cleanup (`retrieve_and_prepare_gridkit`,
`retrieve_and_prepare_powerplants`, `retrieve_and_prepare_cordis`): the
three functions share one shape — `extract_dir.mkdir(parents=True,
exist_ok=True)`, then `try: download; extract; process; metadata
except: log; raise finally: clean_up(zip_path, extract_dir)`.

The staging filesystem is modelled by whether the archive file exists and
whether the extraction directory exists (with a flat list of contained
files; these archives extract flat, and `clean_up` itself — `unlink` each
entry then `rmdir` — assumes flat contents).  Each pipeline stage is an
arbitrary function from staging state to (state at its end, optionally a
raised error), so the theorem quantifies over every behaviour of every
stage, hence over every exit path.
-/

structure StagingState : Type where
  zipFileExists : Bool
  extractDir : Option (List String)
  deriving DecidableEq, Repr

/-- One pipeline stage: final staging state plus the error it raised, if
any. -/
def StageFn : Type := StagingState → StagingState × Option String

/-- Embedding of `clean_up`: delete the archive if it exists; if the
extraction directory exists, unlink each contained file and remove the
directory. -/
def clean_up (s : StagingState) : StagingState :=
  let s1 := if s.zipFileExists then { s with zipFileExists := false } else s
  match s1.extractDir with
  | none => s1
  | some _files => { s1 with extractDir := none }

/-- Run the stages of the `try` block in order, stopping at the first
raised error (the state at the failure point is kept). -/
def runPipelineStages : List StageFn → StagingState → StagingState × Option String
  | [], s => (s, none)
  | f :: fs, s =>
    match f s with
    | (s1, none) => runPipelineStages fs s1
    | (s1, some e) => (s1, some e)

/-- Shared shape of the three archive-based `retrieve_and_prepare`
functions: create the extraction directory (`exist_ok=True`), run the four
stages inside `try`, and apply `clean_up` in `finally` to whatever state
the block ended in, re-raising any error. -/
def retrieveAndPrepareArchive (stages : List StageFn) (s0 : StagingState) :
    StagingState × Option String :=
  let s1 : StagingState := { s0 with extractDir := some (s0.extractDir.getD []) }
  let r := runPipelineStages stages s1
  (clean_up r.1, r.2)

def retrieve_and_prepare_gridkit : List StageFn → StagingState → StagingState × Option String :=
  retrieveAndPrepareArchive

def retrieve_and_prepare_powerplants : List StageFn → StagingState → StagingState × Option String :=
  retrieveAndPrepareArchive

def retrieve_and_prepare_cordis : List StageFn → StagingState → StagingState × Option String :=
  retrieveAndPrepareArchive

theorem clean_up_clears (s : StagingState) :
    (clean_up s).zipFileExists = false ∧ (clean_up s).extractDir = none := by
  unfold clean_up
  rcases s with ⟨z, d⟩
  cases z <;> cases d <;> simp

/-- C5: for the GridKit, power-plants and CORDIS adapters, on every exit
path of retrieve_and_prepare — the stages being arbitrary functions which
may mutate the staging state and raise at any point — the finally-guarded
cleanup executes, and afterwards the staging archive file and the staging
extraction directory no longer exist. -/
theorem C5_staging_cleanup (stages : List StageFn) (s0 : StagingState) :
    ((retrieve_and_prepare_gridkit stages s0).1.zipFileExists = false ∧
      (retrieve_and_prepare_gridkit stages s0).1.extractDir = none) ∧
    ((retrieve_and_prepare_powerplants stages s0).1.zipFileExists = false ∧
      (retrieve_and_prepare_powerplants stages s0).1.extractDir = none) ∧
    ((retrieve_and_prepare_cordis stages s0).1.zipFileExists = false ∧
      (retrieve_and_prepare_cordis stages s0).1.extractDir = none) :=
  ⟨clean_up_clears _, clean_up_clears _, clean_up_clears _⟩

/-!
Power-plants adapter (`src/scripts/powerplants_retrieval.py`).

The bulk CSV's cell values (capacities, coordinates, years included) are
carried opaquely as optional strings — their concrete type plays no role in
the filtering/deduplication logic under verification; `none` models `NaN`.
-/

/-- EU countries and ISO3 codes (lines 17-25). -/
def EU_COUNTRIES_ISO : List (String × String) := [
  ("Austria", "AUT"), ("Belgium", "BEL"), ("Bulgaria", "BGR"),
  ("Croatia", "HRV"), ("Cyprus", "CYP"), ("Czech Republic", "CZE"),
  ("Denmark", "DNK"), ("Estonia", "EST"), ("Finland", "FIN"),
  ("France", "FRA"), ("Germany", "DEU"), ("Greece", "GRC"),
  ("Hungary", "HUN"), ("Ireland", "IRL"), ("Italy", "ITA"),
  ("Latvia", "LVA"), ("Lithuania", "LTU"), ("Luxembourg", "LUX"),
  ("Malta", "MLT"), ("Netherlands", "NLD"), ("Poland", "POL"),
  ("Portugal", "PRT"), ("Romania", "ROU"), ("Slovakia", "SVK"),
  ("Slovenia", "SVN"), ("Spain", "ESP"), ("Sweden", "SWE")]

/-- `EU_COUNTRIES_ISO.values()`. -/
def euIsoValues : List String := EU_COUNTRIES_ISO.map Prod.snd

/-- Source row restricted to the columns the normalizer touches. -/
structure PlantSrcRow : Type where
  country : Option String
  name : Option String
  capacity_mw : Option String
  primary_fuel : Option String
  latitude : Option String
  longitude : Option String
  owner : Option String
  commissioning_year : Option String
  source : Option String
  deriving DecidableEq, Repr

/-- EU membership test of line 48: `df['country'].isin(EU_COUNTRIES_ISO.values())`;
`isin` is false on a missing value. -/
def rowIsEu (r : PlantSrcRow) : Bool :=
  match r.country with
  | some c => euIsoValues.contains c
  | none => false

/-- The filtered frame `df_eu` before renaming (line 48). -/
def df_eu (df : List PlantSrcRow) : List PlantSrcRow := df.filter rowIsEu

/-- Row after the rename/selection of lines 51-67. -/
structure PlantEuRow : Type where
  plant_name : Option String
  country_iso : Option String
  capacity_mw : Option String
  fuel_type : Option String
  latitude : Option String
  longitude : Option String
  owner : Option String
  commissioning_year : Option String
  source : Option String
  deriving DecidableEq, Repr

def toEuRow (r : PlantSrcRow) : PlantEuRow :=
  ⟨r.name, r.country, r.capacity_mw, r.primary_fuel, r.latitude,
    r.longitude, r.owner, r.commissioning_year, r.source⟩

def dfEuRenamed (df : List PlantSrcRow) : List PlantEuRow :=
  (df.filter rowIsEu).map toEuRow

/-- Row of powerplants_nodes.csv (column subset of line 70). -/
structure PlantNodeRow : Type where
  plant_name : Option String
  capacity_mw : Option String
  latitude : Option String
  longitude : Option String
  commissioning_year : Option String
  source : Option String
  deriving DecidableEq, Repr

def plantNodeProj (r : PlantEuRow) : PlantNodeRow :=
  ⟨r.plant_name, r.capacity_mw, r.latitude, r.longitude,
    r.commissioning_year, r.source⟩

/-- powerplants_nodes.csv (lines 70-71): column projection, then
`drop_duplicates(subset=['plant_name'])`. -/
def powerplantsNodes (df : List PlantSrcRow) : List PlantNodeRow :=
  dedupFirstBy (fun r => r.plant_name) ((dfEuRenamed df).map plantNodeProj)

/-- countries_nodes.csv (line 73): single-column projection deduplicated. -/
def countriesNodes (df : List PlantSrcRow) : List (Option String) :=
  dedupFirstBy id ((dfEuRenamed df).map (fun r => r.country_iso))

/-- owners_nodes.csv (lines 74-75): single column, `dropna` then
deduplicated. -/
def ownersNodes (df : List PlantSrcRow) : List String :=
  dedupFirstBy id ((dfEuRenamed df).filterMap (fun r => r.owner))

/-- fuel_types_nodes.csv (lines 77-78): single column deduplicated, with no
`dropna`. -/
def fuelTypesNodes (df : List PlantSrcRow) : List (Option String) :=
  dedupFirstBy id ((dfEuRenamed df).map (fun r => r.fuel_type))

/-- located_in_relationships.csv (line 81): `(plant_name, country_iso)`
pairs with rows missing either value dropped. -/
def locatedInRels (df : List PlantSrcRow) : List (String × String) :=
  (dfEuRenamed df).filterMap (fun r =>
    match r.plant_name, r.country_iso with
    | some n, some c => some (n, c)
    | _, _ => none)

/-- owned_by_relationships.csv (line 82). -/
def ownedByRels (df : List PlantSrcRow) : List (String × String) :=
  (dfEuRenamed df).filterMap (fun r =>
    match r.plant_name, r.owner with
    | some n, some o => some (n, o)
    | _, _ => none)

/-- uses_fuel_relationships.csv (line 83). -/
def usesFuelRels (df : List PlantSrcRow) : List (String × String) :=
  (dfEuRenamed df).filterMap (fun r =>
    match r.plant_name, r.fuel_type with
    | some n, some f => some (n, f)
    | _, _ => none)

theorem mem_dfEuRenamed (df : List PlantSrcRow) (x : PlantEuRow) :
    x ∈ dfEuRenamed df ↔ ∃ r, r ∈ df ∧ rowIsEu r = true ∧ x = toEuRow r := by
  simp only [dfEuRenamed, List.mem_map, List.mem_filter]
  constructor
  · rintro ⟨r, ⟨hr, he⟩, hx⟩; exact ⟨r, hr, he, hx.symm⟩
  · rintro ⟨r, hr, he, hx⟩; exact ⟨r, ⟨hr, he⟩, hx.symm⟩

/-- Two DEU rows for the same plant name with different attribute values:
only the first survives `drop_duplicates(subset=['plant_name'])`. -/
def ppRow1 : PlantSrcRow :=
  ⟨some "DEU", some "X Plant", some "100", some "Coal", some "50.0",
    some "8.0", some "Owner A", some "1990", some "GEODB"⟩

def ppRow2 : PlantSrcRow :=
  ⟨some "DEU", some "X Plant", some "200", some "Gas", some "50.0",
    some "8.0", some "Owner B", some "1995", some "GEODB"⟩

/-- C8 counterexample: the claim's only-if direction fails — a source row
with country "DEU" (an EU ISO3 code) is nevertheless excluded from the
powerplants_nodes.csv output when an earlier row shares its plant_name,
because the node table is deduplicated by plant_name after the EU filter. -/
theorem C8_counterexample :
    ppRow2.country = some "DEU" ∧ "DEU" ∈ euIsoValues ∧
      plantNodeProj (toEuRow ppRow2) ∉ powerplantsNodes [ppRow1, ppRow2] := by
  decide

/-- C8 (amended): a source row passes the EU filter iff its country is one
of the fixed EU ISO3 codes — so "DEU" rows enter the normalization and
"USA" rows are excluded from every output table, each of whose rows
originates from a row that passed the filter — but the inclusion of an EU
row's projection in a particular table is additionally subject to
deduplication and missing-value dropping. -/
theorem C8_powerplants_eu_filter :
    (∀ (df : List PlantSrcRow) (r : PlantSrcRow),
        r ∈ df_eu df ↔ r ∈ df ∧ ∃ c, r.country = some c ∧ c ∈ euIsoValues) ∧
    (∀ df x, x ∈ powerplantsNodes df →
        ∃ r, r ∈ df ∧ rowIsEu r = true ∧ x = plantNodeProj (toEuRow r)) ∧
    (∀ df c, c ∈ countriesNodes df →
        ∃ r, r ∈ df ∧ rowIsEu r = true ∧ c = (toEuRow r).country_iso) ∧
    (∀ df o, o ∈ ownersNodes df →
        ∃ r, r ∈ df ∧ rowIsEu r = true ∧ (toEuRow r).owner = some o) ∧
    (∀ df f, f ∈ fuelTypesNodes df →
        ∃ r, r ∈ df ∧ rowIsEu r = true ∧ f = (toEuRow r).fuel_type) ∧
    (∀ df p, p ∈ locatedInRels df →
        ∃ r, r ∈ df ∧ rowIsEu r = true ∧
          r.name = some p.1 ∧ r.country = some p.2) ∧
    (∀ df p, p ∈ ownedByRels df →
        ∃ r, r ∈ df ∧ rowIsEu r = true ∧
          r.name = some p.1 ∧ r.owner = some p.2) ∧
    (∀ df p, p ∈ usesFuelRels df →
        ∃ r, r ∈ df ∧ rowIsEu r = true ∧
          r.name = some p.1 ∧ r.primary_fuel = some p.2) ∧
    ("DEU" ∈ euIsoValues ∧ "USA" ∉ euIsoValues) := by
  refine ⟨?_, ?_, ?_, ?_, ?_, ?_, ?_, ?_, by decide⟩
  · intro df r
    simp only [df_eu, List.mem_filter, rowIsEu]
    constructor
    · rintro ⟨hr, he⟩
      cases hc : r.country with
      | none => rw [hc] at he; cases he
      | some c =>
        rw [hc] at he
        exact ⟨hr, c, rfl, by simpa using he⟩
    · rintro ⟨hr, c, hc, hin⟩
      exact ⟨hr, by rw [hc]; simpa using hin⟩
  · intro df x hx
    have hx2 := mem_of_mem_dedupFirstBy hx
    obtain ⟨y, hy, hxy⟩ := List.mem_map.mp hx2
    obtain ⟨r, hr, he, hyr⟩ := (mem_dfEuRenamed df y).mp hy
    exact ⟨r, hr, he, by rw [← hxy, hyr]⟩
  · intro df c hc
    have hc2 := mem_of_mem_dedupFirstBy hc
    obtain ⟨y, hy, hcy⟩ := List.mem_map.mp hc2
    obtain ⟨r, hr, he, hyr⟩ := (mem_dfEuRenamed df y).mp hy
    exact ⟨r, hr, he, by rw [← hcy, hyr]⟩
  · intro df o ho
    have ho2 := mem_of_mem_dedupFirstBy ho
    obtain ⟨y, hy, hoy⟩ := List.mem_filterMap.mp ho2
    obtain ⟨r, hr, he, hyr⟩ := (mem_dfEuRenamed df y).mp hy
    exact ⟨r, hr, he, by rw [← hyr]; exact hoy⟩
  · intro df f hf
    have hf2 := mem_of_mem_dedupFirstBy hf
    obtain ⟨y, hy, hfy⟩ := List.mem_map.mp hf2
    obtain ⟨r, hr, he, hyr⟩ := (mem_dfEuRenamed df y).mp hy
    exact ⟨r, hr, he, by rw [← hfy, hyr]⟩
  · intro df p hp
    obtain ⟨y, hy, hpy⟩ := List.mem_filterMap.mp hp
    obtain ⟨r, hr, he, hyr⟩ := (mem_dfEuRenamed df y).mp hy
    subst hyr
    refine ⟨r, hr, he, ?_⟩
    rcases hn : r.name with - | n
    · simp [toEuRow, hn] at hpy
    · rcases hc : r.country with - | c
      · simp [toEuRow, hn, hc] at hpy
      · simp only [toEuRow, hn, hc] at hpy
        obtain rfl : (n, c) = p := Option.some.inj hpy
        exact ⟨rfl, rfl⟩
  · intro df p hp
    obtain ⟨y, hy, hpy⟩ := List.mem_filterMap.mp hp
    obtain ⟨r, hr, he, hyr⟩ := (mem_dfEuRenamed df y).mp hy
    subst hyr
    refine ⟨r, hr, he, ?_⟩
    rcases hn : r.name with - | n
    · simp [toEuRow, hn] at hpy
    · rcases hc : r.owner with - | c
      · simp [toEuRow, hn, hc] at hpy
      · simp only [toEuRow, hn, hc] at hpy
        obtain rfl : (n, c) = p := Option.some.inj hpy
        exact ⟨rfl, rfl⟩
  · intro df p hp
    obtain ⟨y, hy, hpy⟩ := List.mem_filterMap.mp hp
    obtain ⟨r, hr, he, hyr⟩ := (mem_dfEuRenamed df y).mp hy
    subst hyr
    refine ⟨r, hr, he, ?_⟩
    rcases hn : r.name with - | n
    · simp [toEuRow, hn] at hpy
    · rcases hc : r.primary_fuel with - | c
      · simp [toEuRow, hn, hc] at hpy
      · simp only [toEuRow, hn, hc] at hpy
        obtain rfl : (n, c) = p := Option.some.inj hpy
        exact ⟨rfl, rfl⟩

/-!
OSM normalization stage (`src/scripts/osm_prepare_neo4j.py`).

`prepare_osm_data_for_neo4j` loops over the requested countries in order
and, per country, over the categories; for each category it concatenates
the per-country tables in that order (a missing GeoJSON file is skipped
with a warning) and deduplicates by `osm_id` with
`drop_duplicates(subset=['osm_id'])` — default `keep='first'`.
-/

/-- One row built by `geojson_to_df`: the OSM id (`properties.osm_id`, an
integer when present; `none` when the property is absent), the country the
file belongs to, and the category-specific extracted fields carried
opaquely as key/value pairs — their extraction is per-row and plays no role
in the combination/deduplication logic the claims concern (GeoJSON numeric
coordinates are among these opaque fields). -/
structure OsmRow : Type where
  osm_id : Option Int
  country : String
  fields : List (String × Option String)
  deriving DecidableEq, Repr

/-- The per-country tables contributed to one category, in the requested
country order: `lookup c dataset` is the parsed table of
`{c}_{dataset}.geojson` when that file exists (`none` = file missing,
logged and skipped). -/
def collectCategoryTables (lookup : String → String → Option (List OsmRow))
    (countries : List String) (dataset : String) : List (List OsmRow) :=
  countries.filterMap (fun c => lookup c dataset)

/-- Combined node table of one category (lines 102-104 of
`osm_prepare_neo4j.py`): `pd.concat(dfs, ignore_index=True)
.drop_duplicates(subset=['osm_id'])`. -/
def combineCategoryNodes (lookup : String → String → Option (List OsmRow))
    (countries : List String) (dataset : String) : List OsmRow :=
  dedupFirstBy OsmRow.osm_id ((collectCategoryTables lookup countries dataset).flatten)

/-- The per-category LOCATED_IN relationship table (lines 110-113): the
`(osm_id, country)` projection of the deduplicated node table. -/
def osmLocatedInRels (lookup : String → String → Option (List OsmRow))
    (countries : List String) (dataset : String) : List (Option Int × String) :=
  (combineCategoryNodes lookup countries dataset).map (fun r => (r.osm_id, r.country))

/-- C7: in OSM normalization each category's combined node table is
deduplicated by osm_id, and the representative kept for an id is the
first-seen occurrence in concatenation order — a row is in the combined
table iff it is the first row carrying its osm_id in the concatenation of
the per-country tables, taken in requested-country order with features in
file order. -/
theorem C7_osm_dedup_first_seen (lookup : String → String → Option (List OsmRow))
    (countries : List String) (dataset : String) (r : OsmRow) :
    r ∈ combineCategoryNodes lookup countries dataset ↔
      ((collectCategoryTables lookup countries dataset).flatten).find?
        (fun y => decide (y.osm_id = r.osm_id)) = some r :=
  mem_dedupFirstBy OsmRow.osm_id _ r

/-- C1 (amended): the natural-key uniqueness invariant holds for the node
tables the code deduplicates by that key — every OSM per-category node
table has pairwise-distinct osm_id, powerplants_nodes.csv has
pairwise-distinct plant_name, and tso_nodes.csv has pairwise-distinct
(country, area_code) rows — while the CORDIS projects_nodes.csv and
organizations_nodes.csv and the GridKit grid_nodes.csv are emitted without
any deduplication, so input key duplicates reach the output (see the
counterexample), and the CORDIS topics/legal-basis tables are deduplicated
by (id, title) pairs rather than by id alone. -/
theorem C1_node_key_uniqueness :
    (∀ (lookup : String → String → Option (List OsmRow)) (countries : List String)
        (dataset : String),
        ((combineCategoryNodes lookup countries dataset).map OsmRow.osm_id).Nodup) ∧
    (∀ df : List PlantSrcRow,
        ((powerplantsNodes df).map (fun r => r.plant_name)).Nodup) ∧
    (∀ recs : List Interconnection, (tsoNodeRows recs).Nodup) := by
  refine ⟨fun lookup countries dataset => nodup_map_key_dedupFirstBy _ _,
    fun df => nodup_map_key_dedupFirstBy _ _, fun recs => ?_⟩
  have h := nodup_map_key_dedupFirstBy (id : TsoNodeRow → TsoNodeRow)
    (recs.map (fun r => ⟨r.tso_from, r.from_area_code⟩) ++
      recs.map (fun r => ⟨r.tso_to, r.to_area_code⟩))
  simpa [tsoNodeRows] using h

/-!
Orchestrator toggles (`src/main.py`, lines 29-34 and 59-108): each dataset
block is guarded by `os.getenv(NAME, "1") == "1"`.
-/

/-- Toggle evaluation: `os.getenv(name, "1") == "1"`. -/
def envFlag (env : String → Option String) (name : String) : Bool :=
  ((env name).getD "1") == "1"

/-- The pipelines `main` executes, in program order, given the process
environment (each block runs iff its toggle evaluates true; the per-block
try/except isolates failures and does not affect which blocks run). -/
def executedPipelines (env : String → Option String) : List String :=
  (if envFlag env "RUN_OSM" then ["osm"] else []) ++
  (if envFlag env "RUN_GRIDKIT" then ["gridkit"] else []) ++
  (if envFlag env "RUN_POWERPLANTS" then ["powerplants"] else []) ++
  (if envFlag env "RUN_TSO_NETWORK" then ["tso_network"] else []) ++
  (if envFlag env "RUN_CORDIS" then ["cordis"] else [])

/-- C10: a pipeline runs iff its toggle variable is unset or exactly "1";
any other value — "true", "yes", "TRUE" included — disables it, and with no
toggles set all five pipelines run, in program order. -/
theorem C10_env_toggles :
    (∀ (env : String → Option String) (name : String),
        envFlag env name = true ↔ (env name = none ∨ env name = some "1")) ∧
    (∀ env : String → Option String,
        ("osm" ∈ executedPipelines env ↔ envFlag env "RUN_OSM" = true) ∧
        ("gridkit" ∈ executedPipelines env ↔ envFlag env "RUN_GRIDKIT" = true) ∧
        ("powerplants" ∈ executedPipelines env ↔ envFlag env "RUN_POWERPLANTS" = true) ∧
        ("tso_network" ∈ executedPipelines env ↔ envFlag env "RUN_TSO_NETWORK" = true) ∧
        ("cordis" ∈ executedPipelines env ↔ envFlag env "RUN_CORDIS" = true)) ∧
    executedPipelines (fun _ => none) =
      ["osm", "gridkit", "powerplants", "tso_network", "cordis"] ∧
    executedPipelines (fun _ => some "true") = [] ∧
    executedPipelines (fun _ => some "TRUE") = [] ∧
    executedPipelines (fun _ => some "yes") = [] := by
  refine ⟨?_, ?_, by decide, by decide, by decide, by decide⟩
  · intro env name
    unfold envFlag
    cases he : env name with
    | none => simp
    | some s => simp [beq_iff_eq]
  · intro env
    cases h1 : envFlag env "RUN_OSM" <;>
      cases h2 : envFlag env "RUN_GRIDKIT" <;>
        cases h3 : envFlag env "RUN_POWERPLANTS" <;>
          cases h4 : envFlag env "RUN_TSO_NETWORK" <;>
            cases h5 : envFlag env "RUN_CORDIS" <;>
              simp [executedPipelines, h1, h2, h3, h4, h5]

end GeoRetrieval
